import Mathlib

/-!
Verification of the resumable timeline pagination engine of this repository
(`download/timeline.py`): the function `download_timeline` and its helper
`calculate_backoff_delay`.

The loop body of `download_timeline` is embedded as a step function
`timelineStep` over an explicit state record `TimelineState`; one call of
`timelineStep` is one iteration of the `while` loop.  The external
collaborators are abstracted exactly at their call sites:

* `config.get_api().get_timeline(creator_id, cursor, after)` becomes an
  oracle `f : Nat → FetchResult` indexed by the number of fetches issued so
  far; each issued request (pagination cursor, after cursor) is recorded in
  `requests`.
* `get_unique_media_ids(timeline)` becomes the `mediaIds` field of the
  fetched page, `process_download_accessible_media(...)` becomes its
  `dedupOk` field, and the parsed `timeline['posts']` array becomes its
  `posts` field (`none` when the `posts` key is absent).
* `DownloadStateManager.update_cursor(...)` calls are recorded as
  `(cursor, count)` events in `commits`; `get_last_cursor` is the input
  `saved`, `none` when the creator has no history.
* `sleep(...)` calls are recorded as `SleepEvent`s carrying the arguments
  the code computes for them, so that which backoff formula is used is
  visible in the trace.
* `config.stop_flag.is_set()` becomes an oracle `stop : Nat → Bool` polled
  with the number of completed loop iterations.

Cursor encoding: in the Python source `timeline_cursor` starts as the
integer `0`, while post ids taken from the JSON body are strings, so the
equality test `next_cursor == timeline_cursor` is always false on the very
first page.  A cursor is therefore embedded as `Option Nat`: `none` is the
initial integer `0` (distinct from every post id), `some n` is a post id.
In an issued request both are serialized (`str(timeline_cursor)`), which is
irrelevant to the properties below.

Exceptions raised inside the `try` block (`raise_for_status` on a 4xx
status, a transport failure, a missing `response` key) are caught by the
`except` clauses at the bottom of the loop body, which only print and then
fall back to the loop header: the embedding returns the unchanged state as
a normal "continue" outcome in those cases.
-/

/-- One post record of the parsed timeline body; only its `id` field is read
by the engine (`timeline['posts'][i]['id']`).  `none` models a JSON null. -/
structure TimelinePost where
  id : Option Nat
deriving Repr, DecidableEq

/-- The parsed `timeline` object of one 200 response, restricted to what the
engine reads: the `posts` array (`none` when the key is absent), the result
of `get_unique_media_ids`, and the success of
`process_download_accessible_media` on this page's media. -/
structure TimelinePage where
  posts : Option (List TimelinePost)
  mediaIds : List Nat
  dedupOk : Bool
deriving Repr, DecidableEq

/-- Outcome of one `get_timeline` call: an HTTP response with status code,
optional `Retry-After` header value and optional parsed body (`none` models
a body whose `response` key is missing, raising `KeyError`), or an
exception escaping the call itself (transport failure). -/
inductive FetchResult where
  | http (status : Nat) (retryAfter : Option Nat) (body : Option TimelinePage)
  | exn
deriving Repr, DecidableEq

/-- A sleep performed by the loop, recorded with the arguments the source
computes for it: `sleep(retry_after)` on a 429, `sleep(
calculate_backoff_delay(attempts, timeline_delay_seconds))` on a server
error or an empty page, and the randomized 1-2s inter-page pacing sleep. -/
inductive SleepEvent where
  | retryAfterSleep (seconds : Nat)
  | backoffSleep (attempt : Nat) (baseDelay : Nat)
  | paceSleep
deriving Repr, DecidableEq

/-- Reason the loop ended, one per `return`/`break` site (or per exhaustion
of the `while` guard) of `download_timeline`. -/
inductive ExitReason where
  | cancelled
  | retriesExceeded
  | rateLimitExhausted
  | serverErrorExhausted
  | endOfContent
  | emptyNoRetries
  | dedupStop
  | limitReached
  | noPosts
  | cursorStalled
deriving Repr, DecidableEq

/-- The configuration fields of `FanslyConfig` read by `download_timeline`. -/
structure FanslyConfig where
  timeline_retries : Nat
  timeline_delay_seconds : Nat
  incremental_mode : Bool
  max_posts_per_creator : Option Nat
deriving Repr, DecidableEq

/-- The local variables of `download_timeline`'s loop, together with the
observable traces of its effects (requests issued, sleeps performed,
resume-state commits made). -/
structure TimelineState where
  timeline_cursor : Option Nat
  attempts : Nat
  consecutive_empty_count : Nat
  session_new_items : Nat
  most_recent_cursor : Option Nat
  posts_processed : Nat
  commits : List (Nat × Nat)
  requests : List (Option Nat × Nat)
  sleeps : List SleepEvent
  iterations : Nat
deriving Repr, DecidableEq

/-- The `after_cursor` parameter sent with every request: `'0'` unless
incremental mode is on and a saved cursor exists, in which case the saved
cursor (source lines 79-83). -/
def afterOf (config : FanslyConfig) (saved : Option Nat) : Nat :=
  if config.incremental_mode then saved.getD 0 else 0

/-- `apply_post_limit` (source lines 67-71): the new-creator post cap is
armed only when a cap is configured, incremental mode is off, and the
creator has no download history. -/
def applyPostLimit (config : FanslyConfig) (saved : Option Nat) : Bool :=
  config.max_posts_per_creator.isSome && !config.incremental_mode && saved.isNone

/-- End of one loop iteration. -/
def bump (s : TimelineState) : TimelineState :=
  { s with iterations := s.iterations + 1 }

/-- The per-iteration resume-state save block (source lines 273-284): when
incremental mode is on, a most-recent cursor was captured (a Python-truthy
value, i.e. not `None`) and the session has new items, append one
`update_cursor` commit carrying that cursor and the running total. -/
def saveState (config : FanslyConfig) (s : TimelineState) : TimelineState :=
  match s.most_recent_cursor with
  | some c =>
      if config.incremental_mode ∧ 0 < s.session_new_items then
        { s with commits := s.commits ++ [(c, s.session_new_items)] }
      else s
  | none => s

/-- Cursor advance and save (source lines 235-284), entered after a page
with items was fully handed to the media collaborators: pacing sleep, end
checks on the `posts` array, next cursor from the last post, stall check,
then the save block. -/
def advancePhase (config : FanslyConfig) (s : TimelineState) (page : TimelinePage) :
    TimelineState ⊕ ExitReason × TimelineState :=
  let s6 := { s with sleeps := s.sleeps ++ [SleepEvent.paceSleep] }
  match page.posts with
  | none => .inr (.noPosts, s6)
  | some [] => .inr (.noPosts, s6)
  | some (p :: rest) =>
      match ((p :: rest).getLast (List.cons_ne_nil p rest)).id with
      | none => .inr (.cursorStalled, s6)
      | some nc =>
          if s6.timeline_cursor = some nc then .inr (.cursorStalled, s6)
          else .inl (bump (saveState config { s6 with timeline_cursor := some nc }))

/-- Resume-cursor capture (source lines 209-210): the first time the
most-recent cursor is still `None` and the page has a non-empty `posts`
array, remember the first post's id. -/
def captureMrc (s : TimelineState) (page : TimelinePage) : TimelineState :=
  match s.most_recent_cursor, page.posts with
  | none, some (p :: _) => { s with most_recent_cursor := p.id }
  | _, _ => s

/-- Handling of a 200 page with a non-empty media-id set (source lines
194-284): reset both counters, capture the resume cursor from the first
post once per run, accrue the new-item count, stop on a deduplication
failure, apply the new-creator post cap, then advance. -/
def itemsPhase (config : FanslyConfig) (saved : Option Nat) (s : TimelineState)
    (page : TimelinePage) : TimelineState ⊕ ExitReason × TimelineState :=
  let s3 := captureMrc { s with consecutive_empty_count := 0, attempts := 0 } page
  let s4 := { s3 with session_new_items := s3.session_new_items + page.mediaIds.length }
  if page.dedupOk = false then .inr (.dedupStop, s4)
  else
    match config.max_posts_per_creator, page.posts with
    | some cap, some ps =>
        if applyPostLimit config saved then
          let s5 := { s4 with posts_processed := s4.posts_processed + ps.length }
          if cap ≤ s5.posts_processed then .inr (.limitReached, s5)
          else advancePhase config s5 page
        else advancePhase config s4 page
    | _, _ => advancePhase config s4 page

/-- Handling of a 200 page with an empty media-id set (source lines
169-192): count it, end after 3 consecutive empties, otherwise back off
with the same formula as for server errors and retry the same cursor while
retries remain. -/
def emptyPhase (config : FanslyConfig) (s : TimelineState) :
    TimelineState ⊕ ExitReason × TimelineState :=
  let s2 := { s with consecutive_empty_count := s.consecutive_empty_count + 1 }
  if 3 ≤ s2.consecutive_empty_count then .inr (.endOfContent, s2)
  else if s2.attempts < config.timeline_retries then
    .inl (bump { s2 with
      sleeps := s2.sleeps ++ [SleepEvent.backoffSleep s2.attempts config.timeline_delay_seconds],
      attempts := s2.attempts + 1 })
  else .inr (.emptyNoRetries, s2)

/-- One iteration of `download_timeline`'s `while` loop.  `.inl s` means the
loop continues with state `s`; `.inr (r, s)` means the loop ended for
reason `r` in state `s`. -/
def timelineStep (config : FanslyConfig) (saved : Option Nat) (f : Nat → FetchResult)
    (stop : Nat → Bool) (s : TimelineState) : TimelineState ⊕ ExitReason × TimelineState :=
  if config.timeline_retries < s.attempts then .inr (.retriesExceeded, s)
  else if stop s.iterations then .inr (.cancelled, s)
  else
    let s1 := { s with requests := s.requests ++ [(s.timeline_cursor, afterOf config saved)] }
    match f s.requests.length with
    | .exn => .inl (bump s1)
    | .http st ra body =>
        if st = 429 then
          if s1.attempts < config.timeline_retries then
            .inl (bump { s1 with
              sleeps := s1.sleeps ++ [SleepEvent.retryAfterSleep (ra.getD config.timeline_delay_seconds)],
              attempts := s1.attempts + 1 })
          else .inr (.rateLimitExhausted, s1)
        else if 500 ≤ st ∧ st < 600 then
          if s1.attempts < config.timeline_retries then
            .inl (bump { s1 with
              sleeps := s1.sleeps ++ [SleepEvent.backoffSleep s1.attempts config.timeline_delay_seconds],
              attempts := s1.attempts + 1 })
          else .inr (.serverErrorExhausted, s1)
        else if 400 ≤ st ∧ st < 500 then .inl (bump s1)
        else if st ≠ 200 then .inl (bump (saveState config s1))
        else
          match body with
          | none => .inl (bump s1)
          | some page =>
              if page.mediaIds.length = 0 then emptyPhase config s1
              else itemsPhase config saved s1 page

/-- Run up to `fuel` iterations of the loop from state `s`.  The first
component is `none` when the fuel ran out with the loop still going. -/
def runAux (config : FanslyConfig) (saved : Option Nat) (f : Nat → FetchResult)
    (stop : Nat → Bool) : Nat → TimelineState → Option ExitReason × TimelineState
  | 0, s => (none, s)
  | Nat.succ fuel, s =>
      match timelineStep config saved f stop s with
      | .inl s' => runAux config saved f stop fuel s'
      | .inr (r, s') => (some r, s')

/-- Initial loop state (source lines 76, 95-102): cursor `0`, all counters
zero, nothing captured, nothing committed. -/
def initState : TimelineState :=
  { timeline_cursor := none
    attempts := 0
    consecutive_empty_count := 0
    session_new_items := 0
    most_recent_cursor := none
    posts_processed := 0
    commits := []
    requests := []
    sleeps := []
    iterations := 0 }

/-- A whole run of `download_timeline`'s loop from its initial state. -/
def runTimeline (config : FanslyConfig) (saved : Option Nat) (f : Nat → FetchResult)
    (stop : Nat → Bool) (fuel : Nat) : Option ExitReason × TimelineState :=
  runAux config saved f stop fuel initState

/-- The exit reason of a step outcome, `none` for a continuing loop. -/
def exitReasonOf : TimelineState ⊕ ExitReason × TimelineState → Option ExitReason
  | .inl _ => none
  | .inr (r, _) => some r

/-- The state carried by a step outcome. -/
def stateOf : TimelineState ⊕ ExitReason × TimelineState → TimelineState
  | .inl s => s
  | .inr (_, s) => s

/-- `calculate_backoff_delay` (source lines 22-34) over exact rationals:
`min(base_delay * 2^attempt + jitter, 300)`, where the caller's
`random.uniform(0, delay * 0.1)` jitter is passed explicitly. -/
def calculate_backoff_delay (attempt : Nat) (base_delay : ℚ) (jitter : ℚ) : ℚ :=
  min (base_delay * 2 ^ attempt + jitter) 300

/-- A stop flag that is never set. -/
def neverStop : Nat → Bool := fun _ => false

/-- A stop flag that becomes set after the first completed loop iteration. -/
def stopAfterFirstIteration : Nat → Bool := fun n => decide (1 ≤ n)

/-- An incremental-mode configuration with no post cap. -/
def cfgIncremental : FanslyConfig :=
  { timeline_retries := 5, timeline_delay_seconds := 1,
    incremental_mode := true, max_posts_per_creator := none }

/-- An incremental-mode configuration with a post cap of 1. -/
def cfgIncrementalCap1 : FanslyConfig :=
  { timeline_retries := 3, timeline_delay_seconds := 1,
    incremental_mode := true, max_posts_per_creator := some 1 }

/-- A non-incremental configuration with no post cap. -/
def cfgPlain : FanslyConfig :=
  { timeline_retries := 2, timeline_delay_seconds := 1,
    incremental_mode := false, max_posts_per_creator := none }

/-- A non-incremental configuration with a post cap of 1, arming the
new-creator post limit when there is no saved cursor. -/
def cfgPlainCap1 : FanslyConfig :=
  { timeline_retries := 3, timeline_delay_seconds := 1,
    incremental_mode := false, max_posts_per_creator := some 1 }

/-- Mock fetcher: a one-item page led by post 11, then a two-item page led
by post 22, then empty pages. -/
def fetchTwoPagesThenEmpty : Nat → FetchResult
  | 0 => .http 200 none (some { posts := some [⟨some 11⟩], mediaIds := [101], dedupOk := true })
  | 1 => .http 200 none
      (some { posts := some [⟨some 22⟩], mediaIds := [102, 103], dedupOk := true })
  | _ => .http 200 none (some { posts := some [], mediaIds := [], dedupOk := true })

/-- Mock fetcher: every fetch returns the same two-item page whose single
post has id 7, so the second fetch yields a next cursor equal to the
current one. -/
def fetchRepeatPage : Nat → FetchResult :=
  fun _ => .http 200 none (some { posts := some [⟨some 7⟩], mediaIds := [70, 71], dedupOk := true })

/-- Mock fetcher: a page whose leading post id is null (so no resume cursor
is ever captured) but whose last post id advances the cursor. -/
def fetchNullLeadId : Nat → FetchResult :=
  fun _ => .http 200 none
    (some { posts := some [⟨none⟩, ⟨some 5⟩], mediaIds := [101], dedupOk := true })

/-- Mock fetcher: every fetch fails with HTTP 400. -/
def fetchClientError : Nat → FetchResult := fun _ => .http 400 none none

/-- How the observable loop state may change across one phase of an
iteration (requests untouched; attempts reset, kept, or incremented under
the retry ceiling; a captured resume cursor is stable; the session count is
monotone; at most one commit, carrying the captured cursor and the current
total, is appended, and only in incremental mode). -/
def PhaseEvolves (config : FanslyConfig) (s s' : TimelineState) : Prop :=
  s'.requests = s.requests ∧
  (s'.attempts = 0 ∨ s'.attempts = s.attempts ∨
    (s'.attempts = s.attempts + 1 ∧ s.attempts < config.timeline_retries)) ∧
  (∀ c, s.most_recent_cursor = some c → s'.most_recent_cursor = some c) ∧
  s.session_new_items ≤ s'.session_new_items ∧
  (s'.commits = s.commits ∨
    (config.incremental_mode = true ∧ ∃ c, s'.most_recent_cursor = some c ∧
      s'.commits = s.commits ++ [(c, s'.session_new_items)] ∧ 0 < s'.session_new_items))

/-- How the observable loop state may change across one whole iteration:
either nothing happened (the pre-fetch exits), or exactly one request for
the current cursor was issued and the state evolved as in a phase. -/
def StepEvolves (config : FanslyConfig) (saved : Option Nat) (s s' : TimelineState) : Prop :=
  (s' = s ∨ s'.requests = s.requests ++ [(s.timeline_cursor, afterOf config saved)]) ∧
  (s'.attempts = 0 ∨ s'.attempts = s.attempts ∨
    (s'.attempts = s.attempts + 1 ∧ s.attempts < config.timeline_retries)) ∧
  (∀ c, s.most_recent_cursor = some c → s'.most_recent_cursor = some c) ∧
  s.session_new_items ≤ s'.session_new_items ∧
  (s'.commits = s.commits ∨
    (config.incremental_mode = true ∧ ∃ c, s'.most_recent_cursor = some c ∧
      s'.commits = s.commits ++ [(c, s'.session_new_items)] ∧ 0 < s'.session_new_items))

theorem phaseEvolves_refl (config : FanslyConfig) (s : TimelineState) :
    PhaseEvolves config s s :=
  ⟨rfl, Or.inr (Or.inl rfl), fun _ h => h, le_refl _, Or.inl rfl⟩

theorem phaseEvolves_bump (config : FanslyConfig) {s s' : TimelineState}
    (h : PhaseEvolves config s s') : PhaseEvolves config s (bump s') := h

theorem phaseEvolves_passive (config : FanslyConfig) (s : TimelineState)
    (cur : Option Nat) (sl : List SleepEvent) :
    PhaseEvolves config s { s with timeline_cursor := cur, sleeps := sl } :=
  ⟨rfl, Or.inr (Or.inl rfl), fun _ h => h, le_refl _, Or.inl rfl⟩

theorem saveState_evolves (config : FanslyConfig) (s : TimelineState) :
    PhaseEvolves config s (saveState config s) := by
  unfold saveState
  cases h : s.most_recent_cursor with
  | none => exact phaseEvolves_refl config s
  | some c =>
      by_cases hc : config.incremental_mode ∧ 0 < s.session_new_items
      · simp only [if_pos hc]
        refine ⟨rfl, Or.inr (Or.inl rfl), fun c' h' => h.symm.trans h', le_refl _, Or.inr ?_⟩
        exact ⟨hc.1, c, rfl, rfl, hc.2⟩
      · simp only [if_neg hc]
        exact phaseEvolves_refl config s

@[simp] theorem stateOf_inl (s : TimelineState) : stateOf (.inl s) = s := rfl

@[simp] theorem stateOf_inr (r : ExitReason) (s : TimelineState) :
    stateOf (.inr (r, s)) = s := rfl

@[simp] theorem exitReasonOf_inl (s : TimelineState) : exitReasonOf (.inl s) = none := rfl

@[simp] theorem exitReasonOf_inr (r : ExitReason) (s : TimelineState) :
    exitReasonOf (.inr (r, s)) = some r := rfl

@[simp] theorem bump_timeline_cursor (s : TimelineState) :
    (bump s).timeline_cursor = s.timeline_cursor := rfl

@[simp] theorem bump_attempts (s : TimelineState) : (bump s).attempts = s.attempts := rfl

@[simp] theorem bump_session (s : TimelineState) :
    (bump s).session_new_items = s.session_new_items := rfl

@[simp] theorem bump_mrc (s : TimelineState) :
    (bump s).most_recent_cursor = s.most_recent_cursor := rfl

@[simp] theorem bump_commits (s : TimelineState) : (bump s).commits = s.commits := rfl

@[simp] theorem bump_requests (s : TimelineState) : (bump s).requests = s.requests := rfl

theorem saveState_projections (config : FanslyConfig) (s : TimelineState) :
    (saveState config s).timeline_cursor = s.timeline_cursor ∧
    (saveState config s).attempts = s.attempts ∧
    (saveState config s).session_new_items = s.session_new_items ∧
    (saveState config s).most_recent_cursor = s.most_recent_cursor ∧
    (saveState config s).requests = s.requests ∧
    (saveState config s).consecutive_empty_count = s.consecutive_empty_count := by
  unfold saveState
  split
  · split <;> exact ⟨rfl, rfl, rfl, rfl, rfl, rfl⟩
  · exact ⟨rfl, rfl, rfl, rfl, rfl, rfl⟩

@[simp] theorem saveState_timeline_cursor (config : FanslyConfig) (s : TimelineState) :
    (saveState config s).timeline_cursor = s.timeline_cursor :=
  (saveState_projections config s).1

@[simp] theorem saveState_attempts (config : FanslyConfig) (s : TimelineState) :
    (saveState config s).attempts = s.attempts :=
  (saveState_projections config s).2.1

@[simp] theorem saveState_session (config : FanslyConfig) (s : TimelineState) :
    (saveState config s).session_new_items = s.session_new_items :=
  (saveState_projections config s).2.2.1

@[simp] theorem saveState_mrc (config : FanslyConfig) (s : TimelineState) :
    (saveState config s).most_recent_cursor = s.most_recent_cursor :=
  (saveState_projections config s).2.2.2.1

@[simp] theorem saveState_requests (config : FanslyConfig) (s : TimelineState) :
    (saveState config s).requests = s.requests :=
  (saveState_projections config s).2.2.2.2.1

theorem advancePhase_evolves (config : FanslyConfig) (s : TimelineState) (page : TimelinePage) :
    PhaseEvolves config s (stateOf (advancePhase config s page)) ∧
    (stateOf (advancePhase config s page)).attempts = s.attempts := by
  unfold advancePhase
  dsimp only
  split
  · exact ⟨phaseEvolves_passive config s s.timeline_cursor _, rfl⟩
  · exact ⟨phaseEvolves_passive config s s.timeline_cursor _, rfl⟩
  · split
    · exact ⟨phaseEvolves_passive config s s.timeline_cursor _, rfl⟩
    · split
      · exact ⟨phaseEvolves_passive config s s.timeline_cursor _, rfl⟩
      · constructor
        · exact phaseEvolves_bump config (saveState_evolves config _)
        · simp

theorem phaseEvolves_compose_reset (config : FanslyConfig) {s t u : TimelineState}
    (hreq : t.requests = s.requests) (hatt : t.attempts = 0)
    (hattu : u.attempts = t.attempts) (hcom : t.commits = s.commits)
    (hmrc : ∀ c, s.most_recent_cursor = some c → t.most_recent_cursor = some c)
    (hsess : s.session_new_items ≤ t.session_new_items)
    (h : PhaseEvolves config t u) : PhaseEvolves config s u := by
  obtain ⟨h1, h2, h3, h4, h5⟩ := h
  refine ⟨h1.trans hreq, Or.inl (hattu.trans hatt), fun c hc => h3 c (hmrc c hc),
    le_trans hsess h4, ?_⟩
  rcases h5 with h5 | ⟨hi, c, hc, happ, hpos⟩
  · exact Or.inl (h5.trans hcom)
  · exact Or.inr ⟨hi, c, hc, by rw [happ, hcom], hpos⟩

theorem emptyPhase_evolves (config : FanslyConfig) (s : TimelineState) :
    PhaseEvolves config s (stateOf (emptyPhase config s)) := by
  unfold emptyPhase
  dsimp only
  split
  · exact ⟨rfl, Or.inr (Or.inl rfl), fun _ h => h, le_refl _, Or.inl rfl⟩
  · split
    · rename_i hlt
      exact ⟨rfl, Or.inr (Or.inr ⟨rfl, hlt⟩), fun _ h => h, le_refl _, Or.inl rfl⟩
    · exact ⟨rfl, Or.inr (Or.inl rfl), fun _ h => h, le_refl _, Or.inl rfl⟩

theorem captureMrc_projections (s : TimelineState) (page : TimelinePage) :
    (captureMrc s page).timeline_cursor = s.timeline_cursor ∧
    (captureMrc s page).attempts = s.attempts ∧
    (captureMrc s page).consecutive_empty_count = s.consecutive_empty_count ∧
    (captureMrc s page).session_new_items = s.session_new_items ∧
    (captureMrc s page).posts_processed = s.posts_processed ∧
    (captureMrc s page).commits = s.commits ∧
    (captureMrc s page).requests = s.requests ∧
    (captureMrc s page).sleeps = s.sleeps := by
  unfold captureMrc
  split <;> exact ⟨rfl, rfl, rfl, rfl, rfl, rfl, rfl, rfl⟩

@[simp] theorem captureMrc_timeline_cursor (s : TimelineState) (page : TimelinePage) :
    (captureMrc s page).timeline_cursor = s.timeline_cursor :=
  (captureMrc_projections s page).1

@[simp] theorem captureMrc_attempts (s : TimelineState) (page : TimelinePage) :
    (captureMrc s page).attempts = s.attempts :=
  (captureMrc_projections s page).2.1

@[simp] theorem captureMrc_consecutive (s : TimelineState) (page : TimelinePage) :
    (captureMrc s page).consecutive_empty_count = s.consecutive_empty_count :=
  (captureMrc_projections s page).2.2.1

@[simp] theorem captureMrc_session (s : TimelineState) (page : TimelinePage) :
    (captureMrc s page).session_new_items = s.session_new_items :=
  (captureMrc_projections s page).2.2.2.1

@[simp] theorem captureMrc_posts_processed (s : TimelineState) (page : TimelinePage) :
    (captureMrc s page).posts_processed = s.posts_processed :=
  (captureMrc_projections s page).2.2.2.2.1

@[simp] theorem captureMrc_commits (s : TimelineState) (page : TimelinePage) :
    (captureMrc s page).commits = s.commits :=
  (captureMrc_projections s page).2.2.2.2.2.1

@[simp] theorem captureMrc_requests (s : TimelineState) (page : TimelinePage) :
    (captureMrc s page).requests = s.requests :=
  (captureMrc_projections s page).2.2.2.2.2.2.1

theorem captureMrc_mrc_stable (s : TimelineState) (page : TimelinePage) {c : Nat}
    (h : s.most_recent_cursor = some c) :
    (captureMrc s page).most_recent_cursor = some c := by
  unfold captureMrc
  split
  · rename_i heq _
    rw [h] at heq
    exact Option.noConfusion heq
  · exact h

theorem itemsPhase_evolves (config : FanslyConfig) (saved : Option Nat)
    (s : TimelineState) (page : TimelinePage) :
    PhaseEvolves config s (stateOf (itemsPhase config saved s page)) := by
  have hadv : ∀ t : TimelineState, t.requests = s.requests → t.attempts = 0 →
      t.commits = s.commits →
      (∀ c, s.most_recent_cursor = some c → t.most_recent_cursor = some c) →
      s.session_new_items ≤ t.session_new_items →
      PhaseEvolves config s (stateOf (advancePhase config t page)) := by
    intro t h1 h2 h3 h4 h5
    exact phaseEvolves_compose_reset config h1 h2 (advancePhase_evolves config t page).2
      h3 h4 h5 (advancePhase_evolves config t page).1
  have hterm : ∀ t : TimelineState, t.requests = s.requests → t.attempts = 0 →
      t.commits = s.commits →
      (∀ c, s.most_recent_cursor = some c → t.most_recent_cursor = some c) →
      s.session_new_items ≤ t.session_new_items →
      PhaseEvolves config s t := by
    intro t h1 h2 h3 h4 h5
    exact ⟨h1, Or.inl h2, h4, h5, Or.inl h3⟩
  unfold itemsPhase
  dsimp only
  split
  · exact hterm _ (by simp) (by simp) (by simp)
      (fun c hc => captureMrc_mrc_stable _ page hc) (by simp)
  · split
    · split
      · split
        · exact hterm _ (by simp) (by simp) (by simp)
            (fun c hc => captureMrc_mrc_stable _ page hc) (by simp)
        · exact hadv _ (by simp) (by simp) (by simp)
            (fun c hc => captureMrc_mrc_stable _ page hc) (by simp)
      · exact hadv _ (by simp) (by simp) (by simp)
          (fun c hc => captureMrc_mrc_stable _ page hc) (by simp)
    · exact hadv _ (by simp) (by simp) (by simp)
        (fun c hc => captureMrc_mrc_stable _ page hc) (by simp)

theorem stepEvolves_refl (config : FanslyConfig) (saved : Option Nat) (s : TimelineState) :
    StepEvolves config saved s s :=
  ⟨Or.inl rfl, Or.inr (Or.inl rfl), fun _ h => h, le_refl _, Or.inl rfl⟩

theorem stepEvolves_of_phase (config : FanslyConfig) (saved : Option Nat)
    (s u : TimelineState)
    (h : PhaseEvolves config
      { s with requests := s.requests ++ [(s.timeline_cursor, afterOf config saved)] } u) :
    StepEvolves config saved s u := by
  obtain ⟨h1, h2, h3, h4, h5⟩ := h
  exact ⟨Or.inr h1, h2, h3, h4, h5⟩

theorem timelineStep_evolves (config : FanslyConfig) (saved : Option Nat)
    (f : Nat → FetchResult) (stop : Nat → Bool) (s : TimelineState) :
    StepEvolves config saved s (stateOf (timelineStep config saved f stop s)) := by
  unfold timelineStep
  dsimp only
  split
  · exact stepEvolves_refl config saved s
  · split
    · exact stepEvolves_refl config saved s
    · split
      · exact stepEvolves_of_phase config saved s _
          (phaseEvolves_bump config (phaseEvolves_refl config _))
      · split
        · split
          · rename_i hlt
            exact stepEvolves_of_phase config saved s _
              (phaseEvolves_bump config
                ⟨rfl, Or.inr (Or.inr ⟨rfl, hlt⟩), fun _ h => h, le_refl _, Or.inl rfl⟩)
          · exact stepEvolves_of_phase config saved s _ (phaseEvolves_refl config _)
        · split
          · split
            · rename_i hlt
              exact stepEvolves_of_phase config saved s _
                (phaseEvolves_bump config
                  ⟨rfl, Or.inr (Or.inr ⟨rfl, hlt⟩), fun _ h => h, le_refl _, Or.inl rfl⟩)
            · exact stepEvolves_of_phase config saved s _ (phaseEvolves_refl config _)
          · split
            · exact stepEvolves_of_phase config saved s _
                (phaseEvolves_bump config (phaseEvolves_refl config _))
            · split
              · exact stepEvolves_of_phase config saved s _
                  (phaseEvolves_bump config (saveState_evolves config _))
              · split
                · exact stepEvolves_of_phase config saved s _
                    (phaseEvolves_bump config (phaseEvolves_refl config _))
                · split
                  · exact stepEvolves_of_phase config saved s _ (emptyPhase_evolves config _)
                  · exact stepEvolves_of_phase config saved s _
                      (itemsPhase_evolves config saved _ _)

theorem advancePhase_inr_frame (config : FanslyConfig) (s : TimelineState)
    (page : TimelinePage) (r : ExitReason) (s' : TimelineState)
    (h : advancePhase config s page = .inr (r, s')) :
    s'.commits = s.commits ∧ s'.timeline_cursor = s.timeline_cursor ∧
    (r = .noPosts ∨ r = .cursorStalled) := by
  unfold advancePhase at h
  dsimp only at h
  split at h
  · simp only [Sum.inr.injEq, Prod.mk.injEq] at h
    obtain ⟨hr, hs⟩ := h
    subst hr; subst hs
    exact ⟨rfl, rfl, Or.inl rfl⟩
  · simp only [Sum.inr.injEq, Prod.mk.injEq] at h
    obtain ⟨hr, hs⟩ := h
    subst hr; subst hs
    exact ⟨rfl, rfl, Or.inl rfl⟩
  · split at h
    · simp only [Sum.inr.injEq, Prod.mk.injEq] at h
      obtain ⟨hr, hs⟩ := h
      subst hr; subst hs
      exact ⟨rfl, rfl, Or.inr rfl⟩
    · split at h
      · simp only [Sum.inr.injEq, Prod.mk.injEq] at h
        obtain ⟨hr, hs⟩ := h
        subst hr; subst hs
        exact ⟨rfl, rfl, Or.inr rfl⟩
      · exact absurd h (by simp)

theorem itemsPhase_inr_frame (config : FanslyConfig) (saved : Option Nat)
    (s : TimelineState) (page : TimelinePage) (r : ExitReason) (s' : TimelineState)
    (h : itemsPhase config saved s page = .inr (r, s')) :
    s'.commits = s.commits ∧ s'.timeline_cursor = s.timeline_cursor ∧
    (r = .dedupStop ∨ r = .limitReached ∨ r = .noPosts ∨ r = .cursorStalled) := by
  unfold itemsPhase at h
  dsimp only at h
  split at h
  · simp only [Sum.inr.injEq, Prod.mk.injEq] at h
    obtain ⟨hr, hs⟩ := h
    subst hr; subst hs
    exact ⟨by simp, by simp, Or.inl rfl⟩
  · split at h
    · split at h
      · split at h
        · simp only [Sum.inr.injEq, Prod.mk.injEq] at h
          obtain ⟨hr, hs⟩ := h
          subst hr; subst hs
          exact ⟨by simp, by simp, Or.inr (Or.inl rfl)⟩
        · obtain ⟨h1, h2, h3⟩ := advancePhase_inr_frame config _ page r s' h
          exact ⟨h1.trans (by simp), h2.trans (by simp), Or.inr (Or.inr h3)⟩
      · obtain ⟨h1, h2, h3⟩ := advancePhase_inr_frame config _ page r s' h
        exact ⟨h1.trans (by simp), h2.trans (by simp), Or.inr (Or.inr h3)⟩
    · obtain ⟨h1, h2, h3⟩ := advancePhase_inr_frame config _ page r s' h
      exact ⟨h1.trans (by simp), h2.trans (by simp), Or.inr (Or.inr h3)⟩

theorem emptyPhase_inr_frame (config : FanslyConfig) (s : TimelineState)
    (r : ExitReason) (s' : TimelineState)
    (h : emptyPhase config s = .inr (r, s')) :
    s'.commits = s.commits ∧ s'.timeline_cursor = s.timeline_cursor ∧
    (r = .endOfContent ∨ r = .emptyNoRetries) := by
  unfold emptyPhase at h
  dsimp only at h
  split at h
  · simp only [Sum.inr.injEq, Prod.mk.injEq] at h
    obtain ⟨hr, hs⟩ := h
    subst hr; subst hs
    exact ⟨rfl, rfl, Or.inl rfl⟩
  · split at h
    · exact absurd h (by simp)
    · simp only [Sum.inr.injEq, Prod.mk.injEq] at h
      obtain ⟨hr, hs⟩ := h
      subst hr; subst hs
      exact ⟨rfl, rfl, Or.inr rfl⟩

theorem emptyPhase_inl_frame (config : FanslyConfig) (s : TimelineState)
    (s' : TimelineState) (h : emptyPhase config s = .inl s') :
    s'.commits = s.commits ∧ s'.session_new_items = s.session_new_items ∧
    s'.most_recent_cursor = s.most_recent_cursor ∧
    s'.timeline_cursor = s.timeline_cursor := by
  unfold emptyPhase at h
  dsimp only at h
  split at h
  · exact absurd h (by simp)
  · split at h
    · rw [Sum.inl.injEq] at h
      subst h
      exact ⟨by simp, by simp, by simp, by simp⟩
    · exact absurd h (by simp)

theorem saveState_commit_cases (config : FanslyConfig) (t : TimelineState)
    (hinc : config.incremental_mode = true) (c : Nat)
    (hm : t.most_recent_cursor = some c) :
    (saveState config t = t ∧ t.session_new_items = 0) ∨
    ((saveState config t).commits = t.commits ++ [(c, t.session_new_items)] ∧
      0 < t.session_new_items) := by
  unfold saveState
  rw [hm]
  dsimp only
  by_cases hs : 0 < t.session_new_items
  · right
    rw [if_pos ⟨by rw [hinc], hs⟩]
    exact ⟨rfl, hs⟩
  · left
    rw [if_neg (fun hcon => hs hcon.2)]
    exact ⟨rfl, by omega⟩

theorem advancePhase_inl_commit (config : FanslyConfig) (t : TimelineState)
    (page : TimelinePage) (s' : TimelineState)
    (h : advancePhase config t page = .inl s') (hinc : config.incremental_mode = true)
    (hsess : 0 < t.session_new_items) (c : Nat) (hc : s'.most_recent_cursor = some c) :
    s'.commits = t.commits ++ [(c, s'.session_new_items)] ∧ 0 < s'.session_new_items := by
  unfold advancePhase at h
  dsimp only at h
  split at h
  · exact absurd h (by simp)
  · exact absurd h (by simp)
  · split at h
    · exact absurd h (by simp)
    · rename_i nc heqid
      split at h
      · exact absurd h (by simp)
      · rw [Sum.inl.injEq] at h
        subst h
        rcases saveState_commit_cases config
            { t with
              sleeps := t.sleeps ++ [SleepEvent.paceSleep],
              timeline_cursor := some nc } hinc c (by simpa using hc)
          with ⟨heq, hz⟩ | ⟨happ, hp⟩
        · simp at hz
          omega
        · constructor
          · simpa using happ
          · simpa using hp

theorem itemsPhase_inl_commit (config : FanslyConfig) (saved : Option Nat)
    (s : TimelineState) (page : TimelinePage) (s' : TimelineState)
    (h : itemsPhase config saved s page = .inl s')
    (hinc : config.incremental_mode = true) (hne : page.mediaIds.length ≠ 0)
    (c : Nat) (hc : s'.most_recent_cursor = some c) :
    s'.commits = s.commits ++ [(c, s'.session_new_items)] ∧ 0 < s'.session_new_items := by
  unfold itemsPhase at h
  dsimp only at h
  split at h
  · exact absurd h (by simp)
  · split at h
    · split at h
      · split at h
        · exact absurd h (by simp)
        · have hres := advancePhase_inl_commit config _ page s' h hinc
            (by simp only [captureMrc_session]; omega) c hc
          constructor
          · exact hres.1.trans (by simp)
          · exact hres.2
      · have hres := advancePhase_inl_commit config _ page s' h hinc
          (by simp only [captureMrc_session]; omega) c hc
        constructor
        · exact hres.1.trans (by simp)
        · exact hres.2
    · have hres := advancePhase_inl_commit config _ page s' h hinc
        (by simp only [captureMrc_session]; omega) c hc
      constructor
      · exact hres.1.trans (by simp)
      · exact hres.2

theorem timelineStep_inl_commit (config : FanslyConfig) (saved : Option Nat)
    (f : Nat → FetchResult) (stop : Nat → Bool) (s s' : TimelineState)
    (h : timelineStep config saved f stop s = .inl s')
    (hinc : config.incremental_mode = true) (c : Nat)
    (hc : s'.most_recent_cursor = some c) :
    (s'.commits = s.commits ∧ s'.session_new_items = s.session_new_items ∧
      s.most_recent_cursor = some c) ∨
    (s'.commits = s.commits ++ [(c, s'.session_new_items)] ∧ 0 < s'.session_new_items) := by
  unfold timelineStep at h
  dsimp only at h
  split at h
  · exact absurd h (by simp)
  · split at h
    · exact absurd h (by simp)
    · split at h
      · rw [Sum.inl.injEq] at h
        subst h
        exact Or.inl ⟨by simp, by simp, by simpa using hc⟩
      · split at h
        · split at h
          · rw [Sum.inl.injEq] at h
            subst h
            exact Or.inl ⟨by simp, by simp, by simpa using hc⟩
          · exact absurd h (by simp)
        · split at h
          · split at h
            · rw [Sum.inl.injEq] at h
              subst h
              exact Or.inl ⟨by simp, by simp, by simpa using hc⟩
            · exact absurd h (by simp)
          · split at h
            · rw [Sum.inl.injEq] at h
              subst h
              exact Or.inl ⟨by simp, by simp, by simpa using hc⟩
            · split at h
              · rw [Sum.inl.injEq] at h
                subst h
                rcases saveState_commit_cases config
                    { s with
                      requests := s.requests ++ [(s.timeline_cursor, afterOf config saved)] }
                    hinc c (by simpa using hc) with ⟨heq, hz⟩ | ⟨happ, hp⟩
                · refine Or.inl ⟨?_, ?_, by simpa using hc⟩
                  · show (bump (saveState config _)).commits = s.commits
                    rw [heq]
                    simp
                  · show (bump (saveState config _)).session_new_items = s.session_new_items
                    rw [heq]
                    simp
                · refine Or.inr ⟨?_, by simpa using hp⟩
                  show (bump (saveState config _)).commits = _
                  rw [bump_commits, happ]
                  simp
              · split at h
                · rw [Sum.inl.injEq] at h
                  subst h
                  exact Or.inl ⟨by simp, by simp, by simpa using hc⟩
                · split at h
                  · obtain ⟨h1, h2, h3, h4⟩ := emptyPhase_inl_frame config _ s' h
                    exact Or.inl ⟨h1.trans (by simp), h2.trans (by simp),
                      by rw [h3] at hc; simpa using hc⟩
                  · rename_i hne
                    have hres := itemsPhase_inl_commit config saved _ _ s' h hinc hne c hc
                    exact Or.inr ⟨hres.1.trans (by simp), hres.2⟩

theorem timelineStep_inr_frame (config : FanslyConfig) (saved : Option Nat)
    (f : Nat → FetchResult) (stop : Nat → Bool) (s : TimelineState)
    (r : ExitReason) (s' : TimelineState)
    (h : timelineStep config saved f stop s = .inr (r, s')) :
    s'.commits = s.commits ∧ s'.timeline_cursor = s.timeline_cursor ∧
    (r = .cancelled → s' = s ∧ stop s.iterations = true) := by
  unfold timelineStep at h
  dsimp only at h
  split at h
  · simp only [Sum.inr.injEq, Prod.mk.injEq] at h
    obtain ⟨hr, hs⟩ := h
    subst hr; subst hs
    exact ⟨rfl, rfl, fun hcan => ExitReason.noConfusion hcan⟩
  · rename_i hstop
    split at h
    · rename_i hst
      simp only [Sum.inr.injEq, Prod.mk.injEq] at h
      obtain ⟨hr, hs⟩ := h
      subst hr; subst hs
      exact ⟨rfl, rfl, fun _ => ⟨rfl, hst⟩⟩
    · split at h
      · exact absurd h (by simp)
      · split at h
        · split at h
          · exact absurd h (by simp)
          · simp only [Sum.inr.injEq, Prod.mk.injEq] at h
            obtain ⟨hr, hs⟩ := h
            subst hr; subst hs
            exact ⟨rfl, rfl, fun hcan => ExitReason.noConfusion hcan⟩
        · split at h
          · split at h
            · exact absurd h (by simp)
            · simp only [Sum.inr.injEq, Prod.mk.injEq] at h
              obtain ⟨hr, hs⟩ := h
              subst hr; subst hs
              exact ⟨rfl, rfl, fun hcan => ExitReason.noConfusion hcan⟩
          · split at h
            · exact absurd h (by simp)
            · split at h
              · exact absurd h (by simp)
              · split at h
                · exact absurd h (by simp)
                · split at h
                  · obtain ⟨h1, h2, h3⟩ := emptyPhase_inr_frame config _ r s' h
                    refine ⟨h1.trans rfl, h2.trans rfl, fun hcan => ?_⟩
                    rcases h3 with h3 | h3 <;> rw [hcan] at h3 <;>
                      exact ExitReason.noConfusion h3
                  · obtain ⟨h1, h2, h3⟩ := itemsPhase_inr_frame config saved _ _ r s' h
                    refine ⟨h1.trans rfl, h2.trans rfl, fun hcan => ?_⟩
                    rcases h3 with h3 | h3 | h3 | h3 <;> rw [hcan] at h3 <;>
                      exact ExitReason.noConfusion h3

theorem runAux_inv (config : FanslyConfig) (saved : Option Nat) (f : Nat → FetchResult)
    (stop : Nat → Bool) (P : TimelineState → Prop)
    (hstep : ∀ t, P t → P (stateOf (timelineStep config saved f stop t))) :
    ∀ fuel t, P t → P ((runAux config saved f stop fuel t).2) := by
  intro fuel
  induction fuel with
  | zero => intro t ht; exact ht
  | succ n ih =>
      intro t ht
      have h := hstep t ht
      unfold runAux
      cases hst : timelineStep config saved f stop t with
      | inl s1 =>
          rw [hst] at h
          exact ih s1 h
      | inr rs =>
          obtain ⟨r, s1⟩ := rs
          rw [hst] at h
          exact h

theorem runAux_reason_inv (config : FanslyConfig) (saved : Option Nat)
    (f : Nat → FetchResult) (stop : Nat → Bool) (P : TimelineState → Prop)
    (r0 : ExitReason)
    (hstep : ∀ t s1, timelineStep config saved f stop t = .inl s1 → P t → P s1)
    (hterm : ∀ t s1, timelineStep config saved f stop t = .inr (r0, s1) → P t → P s1) :
    ∀ fuel t, P t → (runAux config saved f stop fuel t).1 = some r0 →
      P ((runAux config saved f stop fuel t).2) := by
  intro fuel
  induction fuel with
  | zero =>
      intro t ht hr
      exact ht
  | succ n ih =>
      intro t ht hr
      unfold runAux at hr ⊢
      cases hst : timelineStep config saved f stop t with
      | inl s1 =>
          rw [hst] at hr
          exact ih s1 (hstep t s1 hst ht) hr
      | inr rs =>
          obtain ⟨r, s1⟩ := rs
          rw [hst] at hr
          simp only at hr
          have : r = r0 := by
            simpa using hr
          subst this
          exact hterm t s1 hst ht

/-- C8 counterexample: the claimed interval containment fails once the
uncapped exponential value exceeds the 300-second cap: at attempt 5 with
base delay 10 and zero jitter (a legal jitter draw) the result is 300,
strictly below the claimed lower bound 10 * 2 ^ 5 = 320. -/
theorem C8_interval_refuted :
    (0 : ℚ) ≤ 0 ∧ (0 : ℚ) ≤ 10 * 2 ^ 5 * (1 / 10) ∧
    calculate_backoff_delay 5 10 0 < 10 * 2 ^ 5 := by
  refine ⟨le_refl 0, by norm_num, ?_⟩
  unfold calculate_backoff_delay
  norm_num

/-- C8 (amended): for every attempt and base delay, with the uniform jitter
draw made explicit in its range [0, 10% of base * 2 ^ attempt], the
computed delay is always at most 300 seconds; and whenever base * 2 ^
attempt is at most 300 the delay lies in
[base * 2 ^ attempt, base * 2 ^ attempt * 1.1] (so at attempt 0 it is
approximately the base delay).  Without that proviso the interval claim is
false because of the 300-second cap. -/
theorem C8_backoff_bounds (attempt : Nat) (base jitter : ℚ)
    (hj0 : 0 ≤ jitter) (hj1 : jitter ≤ base * 2 ^ attempt * (1 / 10)) :
    calculate_backoff_delay attempt base jitter ≤ 300 ∧
    (base * 2 ^ attempt ≤ 300 →
      base * 2 ^ attempt ≤ calculate_backoff_delay attempt base jitter ∧
      calculate_backoff_delay attempt base jitter ≤ base * 2 ^ attempt * (11 / 10)) := by
  unfold calculate_backoff_delay
  refine ⟨min_le_right _ _, fun hcap => ⟨le_min (by linarith) hcap, ?_⟩⟩
  calc min (base * 2 ^ attempt + jitter) 300 ≤ base * 2 ^ attempt + jitter :=
        min_le_left _ _
    _ ≤ base * 2 ^ attempt * (11 / 10) := by linarith

/-- C8 witness: at attempt 0 with base delay 2 and zero jitter the delay is
at most 300 and lies in [2, 2.2]. -/
theorem C8_backoff_bounds_witness :
    calculate_backoff_delay 0 2 0 ≤ 300 ∧
    ((2 : ℚ) * 2 ^ 0 ≤ 300 →
      (2 : ℚ) * 2 ^ 0 ≤ calculate_backoff_delay 0 2 0 ∧
      calculate_backoff_delay 0 2 0 ≤ 2 * 2 ^ 0 * (11 / 10)) :=
  C8_backoff_bounds 0 2 0 (le_refl 0) (by norm_num)

/-- C1 counterexample: an incremental run (no saved cursor) that processes
two pages with items and then reaches end of content performs two
ResumeState commits, not exactly one; both carry the first page's leading
post id 11, with the running totals 1 and then 3. -/
theorem C1_single_commit_refuted :
    (runTimeline cfgIncremental none fetchTwoPagesThenEmpty neverStop 10).1 =
      some ExitReason.endOfContent ∧
    ((runTimeline cfgIncremental none fetchTwoPagesThenEmpty neverStop 10).2).commits =
      [(11, 1), (11, 3)] ∧
    ((runTimeline cfgIncremental none fetchTwoPagesThenEmpty neverStop 10).2).commits.length
      ≠ 1 := by
  exact ⟨rfl, rfl, by decide⟩

/-- C2 counterexample: with every fetch answering HTTP 400 (a ClientError),
the run does not stop: after three loop iterations no terminal state has
been reached and the same initial cursor has been fetched three times, with
the attempts counter untouched. -/
theorem C2_fatal_stop_refuted :
    (runTimeline cfgPlain none fetchClientError neverStop 3).1 = none ∧
    ((runTimeline cfgPlain none fetchClientError neverStop 3).2).requests =
      [(none, 0), (none, 0), (none, 0)] ∧
    ((runTimeline cfgPlain none fetchClientError neverStop 3).2).attempts = 0 := by
  exact ⟨rfl, rfl, rfl⟩

/-- C7 counterexample: with a post cap of 1, no prior ResumeState, but
incremental mode enabled, a run that processes pages of 2 items each never
stops with the limit-reached reason: the cap bookkeeping stays at zero and
the run ends with a stalled cursor after 4 accumulated items. -/
theorem C7_incremental_cap_refuted :
    cfgIncrementalCap1.max_posts_per_creator = some 1 ∧
    cfgIncrementalCap1.incremental_mode = true ∧
    (runTimeline cfgIncrementalCap1 none fetchRepeatPage neverStop 5).1 =
      some ExitReason.cursorStalled ∧
    (runTimeline cfgIncrementalCap1 none fetchRepeatPage neverStop 5).1 ≠
      some ExitReason.limitReached ∧
    ((runTimeline cfgIncrementalCap1 none fetchRepeatPage neverStop 5).2).session_new_items
      = 4 ∧
    ((runTimeline cfgIncrementalCap1 none fetchRepeatPage neverStop 5).2).posts_processed
      = 0 := by
  exact ⟨rfl, rfl, rfl, by decide, rfl, rfl⟩

/-- C9 counterexample: an incremental run fully processes one page with one
item and advances the cursor, but the page's leading post id is null so no
resume cursor is captured; when the stop flag then cancels the run, it
returns with one accrued item and no ResumeState commit ever attempted. -/
theorem C9_cancel_commit_refuted :
    (runTimeline cfgIncremental none fetchNullLeadId stopAfterFirstIteration 5).1 =
      some ExitReason.cancelled ∧
    ((runTimeline cfgIncremental none fetchNullLeadId stopAfterFirstIteration 5).2).session_new_items
      = 1 ∧
    ((runTimeline cfgIncremental none fetchNullLeadId stopAfterFirstIteration 5).2).timeline_cursor
      = some 5 ∧
    ((runTimeline cfgIncremental none fetchNullLeadId stopAfterFirstIteration 5).2).commits
      = [] := by
  exact ⟨rfl, rfl, rfl, rfl⟩

/-- C3: HTTP 429 is checked before any other classification (the theorem
holds for every header and body value); while attempts are below the retry
ceiling the engine sleeps for the provider's Retry-After value when the
header is present and otherwise for the configured delay, increments
attempts by exactly one, and re-fetches the same cursor; once attempts have
reached the ceiling it stops with the rate-limit-exhausted reason. -/
theorem C3_rate_limited_retry_policy (config : FanslyConfig) (saved : Option Nat)
    (f : Nat → FetchResult) (stop : Nat → Bool) (s : TimelineState)
    (ra : Option Nat) (body : Option TimelinePage)
    (hguard : s.attempts ≤ config.timeline_retries)
    (hstop : stop s.iterations = false)
    (hf : f s.requests.length = .http 429 ra body) :
    (s.attempts < config.timeline_retries →
      timelineStep config saved f stop s = .inl
        { s with
          requests := s.requests ++ [(s.timeline_cursor, afterOf config saved)],
          sleeps := s.sleeps ++
            [SleepEvent.retryAfterSleep (ra.getD config.timeline_delay_seconds)],
          attempts := s.attempts + 1,
          iterations := s.iterations + 1 }) ∧
    (s.attempts = config.timeline_retries →
      timelineStep config saved f stop s = .inr (.rateLimitExhausted,
        { s with
          requests := s.requests ++ [(s.timeline_cursor, afterOf config saved)] })) := by
  constructor
  · intro hlt
    simp [timelineStep, bump, hf, hstop, hlt, Nat.not_lt.mpr hguard]
  · intro heq
    simp [timelineStep, bump, hf, hstop, heq, Nat.not_lt.mpr hguard]

@[simp] theorem saveState_consecutive (config : FanslyConfig) (s : TimelineState) :
    (saveState config s).consecutive_empty_count = s.consecutive_empty_count :=
  (saveState_projections config s).2.2.2.2.2

@[simp] theorem bump_consecutive (s : TimelineState) :
    (bump s).consecutive_empty_count = s.consecutive_empty_count := rfl

theorem advancePhase_counters (config : FanslyConfig) (t : TimelineState)
    (page : TimelinePage) :
    (stateOf (advancePhase config t page)).attempts = t.attempts ∧
    (stateOf (advancePhase config t page)).consecutive_empty_count =
      t.consecutive_empty_count := by
  unfold advancePhase
  dsimp only
  split
  · exact ⟨rfl, rfl⟩
  · exact ⟨rfl, rfl⟩
  · split
    · exact ⟨rfl, rfl⟩
    · split
      · exact ⟨rfl, rfl⟩
      · constructor <;> simp

theorem itemsPhase_resets (config : FanslyConfig) (saved : Option Nat)
    (t : TimelineState) (page : TimelinePage) :
    (stateOf (itemsPhase config saved t page)).attempts = 0 ∧
    (stateOf (itemsPhase config saved t page)).consecutive_empty_count = 0 := by
  unfold itemsPhase
  dsimp only
  split
  · constructor <;> simp
  · split
    · split
      · split
        · constructor <;> simp
        · constructor
          · exact (advancePhase_counters config _ page).1.trans (by simp)
          · exact (advancePhase_counters config _ page).2.trans (by simp)
      · constructor
        · exact (advancePhase_counters config _ page).1.trans (by simp)
        · exact (advancePhase_counters config _ page).2.trans (by simp)
    · constructor
      · exact (advancePhase_counters config _ page).1.trans (by simp)
      · exact (advancePhase_counters config _ page).2.trans (by simp)

/-- C2 (amended): a page answered with a non-retryable client error (any
4xx status other than 429) or a transport failure does NOT abort the run:
the raised exception is caught by the loop's blanket handlers, which leave
cursor, attempts, counters and commits unchanged and re-enter the loop, so
the same cursor is fetched again on the next iteration; no terminal
transition arises from this outcome (and in particular no immediate
Stopped(fatal_error)). -/
theorem C2_client_error_caught_and_retried (config : FanslyConfig) (saved : Option Nat)
    (f : Nat → FetchResult) (stop : Nat → Bool) (s : TimelineState)
    (hguard : s.attempts ≤ config.timeline_retries)
    (hstop : stop s.iterations = false) :
    (∀ st ra body, f s.requests.length = .http st ra body →
      400 ≤ st → st < 500 → st ≠ 429 →
      timelineStep config saved f stop s = .inl
        { s with
          requests := s.requests ++ [(s.timeline_cursor, afterOf config saved)],
          iterations := s.iterations + 1 }) ∧
    (f s.requests.length = .exn →
      timelineStep config saved f stop s = .inl
        { s with
          requests := s.requests ++ [(s.timeline_cursor, afterOf config saved)],
          iterations := s.iterations + 1 }) := by
  constructor
  · intro st ra body hf h400 h500 hne
    simp [timelineStep, bump, hf, hstop, Nat.not_lt.mpr hguard, hne,
      Nat.not_le.mpr h500, h400, h500]
  · intro hf
    simp [timelineStep, bump, hf, hstop, Nat.not_lt.mpr hguard]

/-- C5: on a 200 page whose media-id set is empty the engine increments the
consecutive-empty counter; when that counter reaches 3 it ends with the
end-of-content reason; below 3 with retries remaining it sleeps with exactly
the same backoff formula and arguments as the server-error path
(calculate_backoff_delay(attempts, timeline_delay_seconds)), increments
attempts and re-fetches the same cursor; below 3 with retries exhausted it
stops with the empty-no-retries reason.  A 200 page with items resets both
attempts and the consecutive-empty counter to zero. -/
theorem C5_empty_page_policy (config : FanslyConfig) (saved : Option Nat)
    (f : Nat → FetchResult) (stop : Nat → Bool) (s : TimelineState)
    (hguard : s.attempts ≤ config.timeline_retries)
    (hstop : stop s.iterations = false) :
    (∀ ra page, f s.requests.length = .http 200 ra (some page) →
      page.mediaIds.length = 0 →
      ((3 ≤ s.consecutive_empty_count + 1 →
        timelineStep config saved f stop s = .inr (.endOfContent,
          { s with
            requests := s.requests ++ [(s.timeline_cursor, afterOf config saved)],
            consecutive_empty_count := s.consecutive_empty_count + 1 })) ∧
      (s.consecutive_empty_count + 1 < 3 → s.attempts < config.timeline_retries →
        timelineStep config saved f stop s = .inl
          { s with
            requests := s.requests ++ [(s.timeline_cursor, afterOf config saved)],
            consecutive_empty_count := s.consecutive_empty_count + 1,
            sleeps := s.sleeps ++
              [SleepEvent.backoffSleep s.attempts config.timeline_delay_seconds],
            attempts := s.attempts + 1,
            iterations := s.iterations + 1 }) ∧
      (s.consecutive_empty_count + 1 < 3 → s.attempts = config.timeline_retries →
        timelineStep config saved f stop s = .inr (.emptyNoRetries,
          { s with
            requests := s.requests ++ [(s.timeline_cursor, afterOf config saved)],
            consecutive_empty_count := s.consecutive_empty_count + 1 })))) ∧
    (∀ st ra body, f s.requests.length = .http st ra body →
      500 ≤ st → st < 600 → s.attempts < config.timeline_retries →
      timelineStep config saved f stop s = .inl
        { s with
          requests := s.requests ++ [(s.timeline_cursor, afterOf config saved)],
          sleeps := s.sleeps ++
            [SleepEvent.backoffSleep s.attempts config.timeline_delay_seconds],
          attempts := s.attempts + 1,
          iterations := s.iterations + 1 }) ∧
    (∀ ra page, f s.requests.length = .http 200 ra (some page) →
      page.mediaIds.length ≠ 0 →
      (stateOf (timelineStep config saved f stop s)).attempts = 0 ∧
      (stateOf (timelineStep config saved f stop s)).consecutive_empty_count = 0) := by
  refine ⟨?_, ?_, ?_⟩
  · intro ra page hf hlen
    refine ⟨?_, ?_, ?_⟩
    · intro h3
      simp [timelineStep, emptyPhase, bump, hf, hstop, hlen, Nat.not_lt.mpr hguard, h3]
    · intro h3 hlt
      simp [timelineStep, emptyPhase, bump, hf, hstop, hlen, Nat.not_lt.mpr hguard,
        Nat.not_le.mpr h3, hlt]
    · intro h3 heq
      simp [timelineStep, emptyPhase, bump, hf, hstop, hlen, Nat.not_lt.mpr hguard,
        Nat.not_le.mpr h3, heq]
  · intro st ra body hf h500 h600 hlt
    have h429 : st ≠ 429 := by omega
    simp [timelineStep, bump, hf, hstop, Nat.not_lt.mpr hguard, h429, h500, h600, hlt]
  · intro ra page hf hlen
    have hred : timelineStep config saved f stop s = itemsPhase config saved
        { s with requests := s.requests ++ [(s.timeline_cursor, afterOf config saved)] }
        page := by
      simp [timelineStep, hf, hstop, hlen, Nat.not_lt.mpr hguard]
    rw [hred]
    exact itemsPhase_resets config saved _ page

/-- C6: the pagination cursor changes only when a page was classified
Success (HTTP 200, parsed body) with items; every terminal transition
leaves the cursor unchanged; when such a page advances, the next cursor is
taken from the page's last post id; and when that next cursor is null or
equals the current cursor the engine terminates with the cursor-stalled
reason in that very iteration, after accruing that page's items exactly
once. -/
theorem C6_cursor_advance_policy (config : FanslyConfig) (saved : Option Nat)
    (f : Nat → FetchResult) (stop : Nat → Bool) (s : TimelineState)
    (hguard : s.attempts ≤ config.timeline_retries)
    (hstop : stop s.iterations = false) :
    (∀ s1, timelineStep config saved f stop s = .inl s1 →
      s1.timeline_cursor ≠ s.timeline_cursor →
      ∃ ra page, f s.requests.length = .http 200 ra (some page) ∧
        page.mediaIds.length ≠ 0) ∧
    (∀ r s1, timelineStep config saved f stop s = .inr (r, s1) →
      s1.timeline_cursor = s.timeline_cursor) ∧
    (∀ ra page p rest nc, f s.requests.length = .http 200 ra (some page) →
      page.mediaIds.length ≠ 0 → page.dedupOk = true →
      applyPostLimit config saved = false →
      page.posts = some (p :: rest) →
      ((p :: rest).getLast (List.cons_ne_nil p rest)).id = some nc →
      s.timeline_cursor ≠ some nc →
      exitReasonOf (timelineStep config saved f stop s) = none ∧
      (stateOf (timelineStep config saved f stop s)).timeline_cursor = some nc) ∧
    (∀ ra page p rest, f s.requests.length = .http 200 ra (some page) →
      page.mediaIds.length ≠ 0 → page.dedupOk = true →
      applyPostLimit config saved = false →
      page.posts = some (p :: rest) →
      (((p :: rest).getLast (List.cons_ne_nil p rest)).id = none ∨
        ((p :: rest).getLast (List.cons_ne_nil p rest)).id = s.timeline_cursor) →
      exitReasonOf (timelineStep config saved f stop s) = some .cursorStalled ∧
      (stateOf (timelineStep config saved f stop s)).session_new_items =
        s.session_new_items + page.mediaIds.length ∧
      (stateOf (timelineStep config saved f stop s)).timeline_cursor =
        s.timeline_cursor) := by
  refine ⟨?_, ?_, ?_, ?_⟩
  · intro s1 h hneq
    unfold timelineStep at h
    dsimp only at h
    split at h
    · exact absurd h (by simp)
    · split at h
      · exact absurd h (by simp)
      · split at h
        · rw [Sum.inl.injEq] at h; subst h; simp at hneq
        · rename_i st ra body heqf
          split at h
          · split at h
            · rw [Sum.inl.injEq] at h; subst h; simp at hneq
            · exact absurd h (by simp)
          · split at h
            · split at h
              · rw [Sum.inl.injEq] at h; subst h; simp at hneq
              · exact absurd h (by simp)
            · split at h
              · rw [Sum.inl.injEq] at h; subst h; simp at hneq
              · split at h
                · rw [Sum.inl.injEq] at h; subst h; simp at hneq
                · rename_i h200ne
                  split at h
                  · rw [Sum.inl.injEq] at h; subst h; simp at hneq
                  · rename_i page
                    split at h
                    · obtain ⟨-, -, -, h4⟩ := emptyPhase_inl_frame config _ s1 h
                      rw [h4] at hneq
                      simp at hneq
                    · rename_i hlen
                      have h200 : st = 200 := not_ne_iff.mp h200ne
                      rw [h200] at heqf
                      exact ⟨ra, page, heqf, hlen⟩
  · exact fun r s1 h => (timelineStep_inr_frame config saved f stop s r s1 h).2.1
  · intro ra page p rest nc hf hlen hded happ hposts hlast hne2
    rcases hcapopt : config.max_posts_per_creator with _ | cap
    · simp [timelineStep, itemsPhase, advancePhase, bump, hf, hstop, hlen,
        Nat.not_lt.mpr hguard, hded, hposts, hlast, hne2, hcapopt]
    · simp [timelineStep, itemsPhase, advancePhase, bump, hf, hstop, hlen,
        Nat.not_lt.mpr hguard, hded, hposts, hlast, hne2, hcapopt, happ]
  · intro ra page p rest hf hlen hded happ hposts hstall
    rcases hstall with hstall | hstall
    · rcases hcapopt : config.max_posts_per_creator with _ | cap
      · simp [timelineStep, itemsPhase, advancePhase, bump, hf, hstop, hlen,
          Nat.not_lt.mpr hguard, hded, hposts, hstall, hcapopt]
      · simp [timelineStep, itemsPhase, advancePhase, bump, hf, hstop, hlen,
          Nat.not_lt.mpr hguard, hded, hposts, hstall, hcapopt, happ]
    · rcases hcur : s.timeline_cursor with _ | nc
      · rw [hcur] at hstall
        rcases hcapopt : config.max_posts_per_creator with _ | cap
        · simp [timelineStep, itemsPhase, advancePhase, bump, hf, hstop, hlen,
            Nat.not_lt.mpr hguard, hded, hposts, hstall, hcur, hcapopt]
        · simp [timelineStep, itemsPhase, advancePhase, bump, hf, hstop, hlen,
            Nat.not_lt.mpr hguard, hded, hposts, hstall, hcur, hcapopt, happ]
      · rw [hcur] at hstall
        rcases hcapopt : config.max_posts_per_creator with _ | cap
        · simp [timelineStep, itemsPhase, advancePhase, bump, hf, hstop, hlen,
            Nat.not_lt.mpr hguard, hded, hposts, hstall, hcur, hcapopt]
        · simp [timelineStep, itemsPhase, advancePhase, bump, hf, hstop, hlen,
            Nat.not_lt.mpr hguard, hded, hposts, hstall, hcur, hcapopt, happ]

theorem itemsPhase_limit_requires (config : FanslyConfig) (saved : Option Nat)
    (t : TimelineState) (page : TimelinePage) (s1 : TimelineState)
    (h : itemsPhase config saved t page = .inr (.limitReached, s1)) :
    applyPostLimit config saved = true := by
  unfold itemsPhase at h
  dsimp only at h
  split at h
  · simp at h
  · split at h
    · split at h
      · rename_i happly
        split at h
        · exact happly
        · obtain ⟨-, -, h3⟩ := advancePhase_inr_frame config _ page _ s1 h
          rcases h3 with h3 | h3 <;> exact ExitReason.noConfusion h3
      · obtain ⟨-, -, h3⟩ := advancePhase_inr_frame config _ page _ s1 h
        rcases h3 with h3 | h3 <;> exact ExitReason.noConfusion h3
    · obtain ⟨-, -, h3⟩ := advancePhase_inr_frame config _ page _ s1 h
      rcases h3 with h3 | h3 <;> exact ExitReason.noConfusion h3

theorem timelineStep_limit_requires (config : FanslyConfig) (saved : Option Nat)
    (f : Nat → FetchResult) (stop : Nat → Bool) (s s1 : TimelineState)
    (h : timelineStep config saved f stop s = .inr (.limitReached, s1)) :
    applyPostLimit config saved = true := by
  unfold timelineStep at h
  dsimp only at h
  split at h
  · simp at h
  · split at h
    · simp at h
    · split at h
      · simp at h
      · split at h
        · split at h
          · simp at h
          · simp at h
        · split at h
          · split at h
            · simp at h
            · simp at h
          · split at h
            · simp at h
            · split at h
              · simp at h
              · split at h
                · simp at h
                · split at h
                  · obtain ⟨-, -, h3⟩ := emptyPhase_inr_frame config _ _ s1 h
                    rcases h3 with h3 | h3 <;> exact ExitReason.noConfusion h3
                  · exact itemsPhase_limit_requires config saved _ _ s1 h

/-- C7 (amended): the new-creator cap is armed only when a cap is
configured AND incremental mode is off AND the creator has no prior
ResumeState; when armed, a fully-processed page with items that brings the
cumulative post count to the cap or beyond terminates the run with the
limit-reached reason; whenever incremental mode is on, or a prior saved
cursor exists, the cap is ignored and no limit-reached termination can
occur.  The claim's version omitted the incremental-mode condition. -/
theorem C7_post_limit_policy (config : FanslyConfig) (saved : Option Nat)
    (f : Nat → FetchResult) (stop : Nat → Bool) (s : TimelineState)
    (hguard : s.attempts ≤ config.timeline_retries)
    (hstop : stop s.iterations = false) :
    (∀ ra page cap ps, f s.requests.length = .http 200 ra (some page) →
      page.mediaIds.length ≠ 0 → page.dedupOk = true →
      applyPostLimit config saved = true →
      config.max_posts_per_creator = some cap →
      page.posts = some ps →
      cap ≤ s.posts_processed + ps.length →
      exitReasonOf (timelineStep config saved f stop s) = some .limitReached ∧
      (stateOf (timelineStep config saved f stop s)).posts_processed =
        s.posts_processed + ps.length ∧
      (stateOf (timelineStep config saved f stop s)).session_new_items =
        s.session_new_items + page.mediaIds.length) ∧
    (applyPostLimit config saved = false →
      ∀ s1, timelineStep config saved f stop s ≠ .inr (.limitReached, s1)) ∧
    (config.incremental_mode = true → applyPostLimit config saved = false) ∧
    (∀ c0, saved = some c0 → applyPostLimit config saved = false) := by
  refine ⟨?_, ?_, ?_, ?_⟩
  · intro ra page cap ps hf hlen hded happly hcap hposts hle
    simp [timelineStep, itemsPhase, bump, hf, hstop, hlen, Nat.not_lt.mpr hguard,
      hded, hcap, hposts, happly, hle]
  · intro hfalse s1 h
    have := timelineStep_limit_requires config saved f stop s s1 h
    rw [hfalse] at this
    exact Bool.noConfusion this
  · intro hinc
    simp [applyPostLimit, hinc]
  · intro c0 hs
    simp [applyPostLimit, hs]

/-- C4: the attempts counter never exceeds the configured retry ceiling:
one iteration from any state within the ceiling stays within the ceiling,
and every whole run from the initial state ends within the ceiling; and
every terminal transition is an ordinary state (a break with a reason), in
which the commit history recorded so far is left intact rather than being
lost to an exception. -/
theorem C4_attempts_bounded (config : FanslyConfig) (saved : Option Nat)
    (f : Nat → FetchResult) (stop : Nat → Bool) :
    (∀ s : TimelineState, s.attempts ≤ config.timeline_retries →
      (stateOf (timelineStep config saved f stop s)).attempts ≤
        config.timeline_retries) ∧
    (∀ fuel, ((runTimeline config saved f stop fuel).2).attempts ≤
      config.timeline_retries) ∧
    (∀ (s : TimelineState) r s1, timelineStep config saved f stop s = .inr (r, s1) →
      s1.commits = s.commits) := by
  have hstep : ∀ s : TimelineState, s.attempts ≤ config.timeline_retries →
      (stateOf (timelineStep config saved f stop s)).attempts ≤
        config.timeline_retries := by
    intro s hs
    obtain ⟨-, hatt, -, -, -⟩ := timelineStep_evolves config saved f stop s
    rcases hatt with h | h | ⟨h, hlt⟩
    · rw [h]; exact Nat.zero_le _
    · rw [h]; exact hs
    · rw [h]; omega
  refine ⟨hstep, ?_, ?_⟩
  · intro fuel
    exact runAux_inv config saved f stop
      (fun t => t.attempts ≤ config.timeline_retries) hstep fuel initState (Nat.zero_le _)
  · exact fun s r s1 h => (timelineStep_inr_frame config saved f stop s r s1 h).1

/-- C10: the run starts with pagination cursor 0 (embedded as `none`),
regardless of any stored resume cursor; in every run, each issued request
carries the after-filter parameter (the saved cursor in incremental mode,
otherwise 0), and the first request ever issued asks for pagination cursor
0; in incremental mode with a saved cursor the after parameter is exactly
that saved cursor. -/
theorem C10_first_fetch_cursor_zero (config : FanslyConfig) (saved : Option Nat)
    (f : Nat → FetchResult) (stop : Nat → Bool) :
    initState.timeline_cursor = none ∧
    (∀ fuel,
      (∀ rq ∈ ((runTimeline config saved f stop fuel).2).requests,
        rq.2 = afterOf config saved) ∧
      (((runTimeline config saved f stop fuel).2).requests = [] ∨
        ((runTimeline config saved f stop fuel).2).requests.head? =
          some (none, afterOf config saved))) ∧
    (config.incremental_mode = true → ∀ c, afterOf config (some c) = c) := by
  have hstep : ∀ t : TimelineState,
      ((∀ rq ∈ t.requests, rq.2 = afterOf config saved) ∧
        (t.requests = [] → t.timeline_cursor = none) ∧
        (t.requests = [] ∨ t.requests.head? = some (none, afterOf config saved))) →
      ((∀ rq ∈ (stateOf (timelineStep config saved f stop t)).requests,
          rq.2 = afterOf config saved) ∧
        ((stateOf (timelineStep config saved f stop t)).requests = [] →
          (stateOf (timelineStep config saved f stop t)).timeline_cursor = none) ∧
        ((stateOf (timelineStep config saved f stop t)).requests = [] ∨
          (stateOf (timelineStep config saved f stop t)).requests.head? =
            some (none, afterOf config saved))) := by
    intro t ht
    obtain ⟨hreq, -, -, -, -⟩ := timelineStep_evolves config saved f stop t
    rcases hreq with heq | happ
    · rw [heq]; exact ht
    · refine ⟨?_, ?_, ?_⟩
      · intro rq hrq
        rw [happ] at hrq
        rcases List.mem_append.mp hrq with hin | hin
        · exact ht.1 rq hin
        · rw [List.mem_singleton] at hin
          rw [hin]
      · intro hnil
        rw [happ] at hnil
        simp at hnil
      · right
        rw [happ]
        cases hsr : t.requests with
        | nil => simp [ht.2.1 hsr]
        | cons a l =>
            rcases ht.2.2 with hnil | hhead
            · rw [hsr] at hnil
              exact absurd hnil (by simp)
            · rw [hsr] at hhead
              simpa using hhead
  refine ⟨rfl, ?_, ?_⟩
  · intro fuel
    have h := runAux_inv config saved f stop _ hstep fuel initState
      ⟨by intro rq hrq; simp [initState] at hrq, fun _ => rfl, Or.inl rfl⟩
    exact ⟨h.1, h.2.2⟩
  · intro hinc c
    simp [afterOf, hinc]

/-- C1 (amended): in incremental mode the engine does not commit exactly
once per run; it commits at the end of every fully-processed page with
items.  Every commit in a run's history carries the resume cursor captured
once from the first page processed (the current most-recent-cursor value)
together with a positive running total bounded by the session total, and a
run that retrieved zero new items commits nothing; one iteration that fully
processes a page with items (with the cursor advancing) appends exactly one
commit carrying the captured cursor and the accumulated total. -/
theorem C1_commit_per_page (config : FanslyConfig) (saved : Option Nat)
    (f : Nat → FetchResult) (stop : Nat → Bool)
    (hinc : config.incremental_mode = true) :
    (∀ fuel,
      (((runTimeline config saved f stop fuel).2).session_new_items = 0 →
        ((runTimeline config saved f stop fuel).2).commits = []) ∧
      (∀ pr ∈ ((runTimeline config saved f stop fuel).2).commits,
        ((runTimeline config saved f stop fuel).2).most_recent_cursor = some pr.1 ∧
        0 < pr.2 ∧
        pr.2 ≤ ((runTimeline config saved f stop fuel).2).session_new_items)) ∧
    (∀ (s : TimelineState) ra page c p rest nc,
      s.attempts ≤ config.timeline_retries → stop s.iterations = false →
      s.most_recent_cursor = some c →
      f s.requests.length = .http 200 ra (some page) →
      page.mediaIds.length ≠ 0 → page.dedupOk = true →
      applyPostLimit config saved = false →
      page.posts = some (p :: rest) →
      ((p :: rest).getLast (List.cons_ne_nil p rest)).id = some nc →
      s.timeline_cursor ≠ some nc →
      exitReasonOf (timelineStep config saved f stop s) = none ∧
      (stateOf (timelineStep config saved f stop s)).commits =
        s.commits ++ [(c, s.session_new_items + page.mediaIds.length)] ∧
      (stateOf (timelineStep config saved f stop s)).session_new_items =
        s.session_new_items + page.mediaIds.length) := by
  constructor
  · have hstep : ∀ t : TimelineState,
        ((t.session_new_items = 0 → t.commits = []) ∧
          (∀ pr ∈ t.commits, t.most_recent_cursor = some pr.1 ∧ 0 < pr.2 ∧
            pr.2 ≤ t.session_new_items)) →
        (((stateOf (timelineStep config saved f stop t)).session_new_items = 0 →
          (stateOf (timelineStep config saved f stop t)).commits = []) ∧
          (∀ pr ∈ (stateOf (timelineStep config saved f stop t)).commits,
            (stateOf (timelineStep config saved f stop t)).most_recent_cursor =
              some pr.1 ∧ 0 < pr.2 ∧
            pr.2 ≤ (stateOf (timelineStep config saved f stop t)).session_new_items)) := by
      intro t ht
      obtain ⟨-, -, hmrc, hsess, hcomm⟩ := timelineStep_evolves config saved f stop t
      constructor
      · intro hz
        rcases hcomm with hcm | ⟨-, c, -, happ, hpos⟩
        · rw [hcm]
          exact ht.1 (by omega)
        · omega
      · intro pr hpr
        rcases hcomm with hcm | ⟨-, c, hc, happ, hpos⟩
        · rw [hcm] at hpr
          obtain ⟨h1, h2, h3⟩ := ht.2 pr hpr
          exact ⟨hmrc pr.1 h1, h2, le_trans h3 hsess⟩
        · rw [happ] at hpr
          rcases List.mem_append.mp hpr with hin | hin
          · obtain ⟨h1, h2, h3⟩ := ht.2 pr hin
            exact ⟨hmrc pr.1 h1, h2, le_trans h3 hsess⟩
          · rw [List.mem_singleton] at hin
            refine ⟨by rw [hin]; exact hc, by rw [hin]; exact hpos, by rw [hin]⟩
    intro fuel
    exact runAux_inv config saved f stop _ hstep fuel initState
      ⟨fun _ => rfl, by intro pr hpr; simp [initState] at hpr⟩
  · intro s ra page c p rest nc hguard hstop hmrc hf hlen hded happly hposts hlast hne2
    have hpos : 0 < s.session_new_items + page.mediaIds.length := by omega
    rcases hcapopt : config.max_posts_per_creator with _ | cap
    · simp [timelineStep, itemsPhase, advancePhase, captureMrc, saveState, bump, hf,
        hstop, hlen, Nat.not_lt.mpr hguard, hded, hposts, hlast, hne2, hcapopt,
        hmrc, hinc, hpos]
    · simp [timelineStep, itemsPhase, advancePhase, captureMrc, saveState, bump, hf,
        hstop, hlen, Nat.not_lt.mpr hguard, hded, hposts, hlast, hne2, hcapopt,
        hmrc, hinc, hpos, happly]

/-- C9 (amended): the cancellation check performs no ResumeState commit of
its own: when the stop flag is set the engine returns with the state
exactly as it was.  What protects progress is the per-page commit policy:
in an incremental run that ends cancelled, whenever a resume cursor was
captured and items were accrued, the last commit on record carries exactly
that cursor and the full accrued total (the counterexample shows the
accrued total can be lost when no resume cursor was ever captured because
the first page's leading post id was null). -/
theorem C9_cancellation_commit_policy (config : FanslyConfig) (saved : Option Nat)
    (f : Nat → FetchResult) (stop : Nat → Bool)
    (hinc : config.incremental_mode = true) :
    (∀ s : TimelineState, s.attempts ≤ config.timeline_retries →
      stop s.iterations = true →
      timelineStep config saved f stop s = .inr (.cancelled, s)) ∧
    (∀ fuel s1, runTimeline config saved f stop fuel = (some .cancelled, s1) →
      ∀ c, s1.most_recent_cursor = some c → 0 < s1.session_new_items →
        s1.commits.getLast? = some (c, s1.session_new_items)) := by
  constructor
  · intro s hguard hstop
    simp [timelineStep, Nat.not_lt.mpr hguard, hstop]
  · have hstep : ∀ t s2, timelineStep config saved f stop t = .inl s2 →
        (∀ c0, t.most_recent_cursor = some c0 → 0 < t.session_new_items →
          t.commits.getLast? = some (c0, t.session_new_items)) →
        (∀ c0, s2.most_recent_cursor = some c0 → 0 < s2.session_new_items →
          s2.commits.getLast? = some (c0, s2.session_new_items)) := by
      intro t s2 h ht c0 hc0 hpos0
      rcases timelineStep_inl_commit config saved f stop t s2 h hinc c0 hc0 with
        ⟨hcm, hsess, hmrc⟩ | ⟨happ, -⟩
      · rw [hcm, hsess]
        exact ht c0 hmrc (by omega)
      · rw [happ]
        exact List.getLast?_concat _
    have hterm : ∀ t s2,
        timelineStep config saved f stop t = .inr (.cancelled, s2) →
        (∀ c0, t.most_recent_cursor = some c0 → 0 < t.session_new_items →
          t.commits.getLast? = some (c0, t.session_new_items)) →
        (∀ c0, s2.most_recent_cursor = some c0 → 0 < s2.session_new_items →
          s2.commits.getLast? = some (c0, s2.session_new_items)) := by
      intro t s2 h ht
      obtain ⟨-, -, hcan⟩ := timelineStep_inr_frame config saved f stop t _ s2 h
      obtain ⟨heq, -⟩ := hcan rfl
      rw [heq]
      exact ht
    intro fuel s1 hrun c hc hpos
    unfold runTimeline at hrun
    have h1 : (runAux config saved f stop fuel initState).1 = some .cancelled := by
      rw [hrun]
    have h2 := runAux_reason_inv config saved f stop _ .cancelled hstep hterm fuel
      initState (by intro c0 hc0; simp [initState] at hc0) h1
    rw [hrun] at h2
    exact h2 c hc hpos

/-- C3 witness: at the initial state with a retry budget of 2 and a
Retry-After header of 7 seconds, a 429 answer sleeps 7 seconds, bumps
attempts to 1 and leaves the cursor alone. -/
theorem C3_rate_limited_retry_policy_witness :
    timelineStep cfgPlain none (fun _ => .http 429 (some 7) none) neverStop initState =
      .inl
        { initState with
          requests := [(none, 0)],
          sleeps := [SleepEvent.retryAfterSleep 7],
          attempts := 1,
          iterations := 1 } := by
  have h := (C3_rate_limited_retry_policy cfgPlain none
    (fun _ => .http 429 (some 7) none) neverStop initState (some 7) none
    (by decide) rfl rfl).1 (by decide)
  exact h

/-- C2 witness: a 400 answer at the initial state is swallowed: the loop
continues with only the request log and the iteration count grown. -/
theorem C2_client_error_caught_and_retried_witness :
    timelineStep cfgPlain none fetchClientError neverStop initState = .inl
      { initState with
        requests := [(none, 0)],
        iterations := 1 } := by
  have h := (C2_client_error_caught_and_retried cfgPlain none fetchClientError neverStop
    initState (by decide) rfl).1 400 none none rfl (by decide) (by decide) (by decide)
  exact h

/-- C5 witness: a third consecutive empty 200 page ends the run with the
end-of-content reason. -/
theorem C5_empty_page_policy_witness :
    timelineStep cfgPlain none
      (fun _ => .http 200 none (some { posts := some [], mediaIds := [], dedupOk := true }))
      neverStop { initState with consecutive_empty_count := 2 } =
    .inr (.endOfContent,
      { initState with
        consecutive_empty_count := 3,
        requests := [(none, 0)] }) := by
  have h := ((C5_empty_page_policy cfgPlain none
    (fun _ => .http 200 none (some { posts := some [], mediaIds := [], dedupOk := true }))
    neverStop { initState with consecutive_empty_count := 2 } (by decide) rfl).1 none
    { posts := some [], mediaIds := [], dedupOk := true } rfl rfl).1 (by decide)
  exact h

/-- C6 witness: a page whose last post id equals the current cursor stalls:
the run ends with the cursor-stalled reason in that iteration, with the
page's two items accrued exactly once and the cursor unchanged. -/
theorem C6_cursor_advance_policy_witness :
    exitReasonOf (timelineStep cfgIncremental none fetchRepeatPage neverStop
      { initState with timeline_cursor := some 7 }) = some .cursorStalled ∧
    (stateOf (timelineStep cfgIncremental none fetchRepeatPage neverStop
      { initState with timeline_cursor := some 7 })).session_new_items = 2 ∧
    (stateOf (timelineStep cfgIncremental none fetchRepeatPage neverStop
      { initState with timeline_cursor := some 7 })).timeline_cursor = some 7 := by
  have h := (C6_cursor_advance_policy cfgIncremental none fetchRepeatPage neverStop
    { initState with timeline_cursor := some 7 } (by decide) rfl).2.2.2 none
    { posts := some [⟨some 7⟩], mediaIds := [70, 71], dedupOk := true }
    ⟨some 7⟩ [] rfl (by decide) rfl (by decide) rfl (Or.inr rfl)
  simpa using h

/-- C7 witness: with the cap armed (cap 1, non-incremental, no saved
cursor), the first one-post page with items ends the run with the
limit-reached reason, with the post count at 1 and both items accrued. -/
theorem C7_post_limit_policy_witness :
    exitReasonOf (timelineStep cfgPlainCap1 none fetchRepeatPage neverStop initState) =
      some .limitReached ∧
    (stateOf (timelineStep cfgPlainCap1 none fetchRepeatPage neverStop
      initState)).posts_processed = 1 ∧
    (stateOf (timelineStep cfgPlainCap1 none fetchRepeatPage neverStop
      initState)).session_new_items = 2 := by
  have h := (C7_post_limit_policy cfgPlainCap1 none fetchRepeatPage neverStop initState
    (by decide) rfl).1 none
    { posts := some [⟨some 7⟩], mediaIds := [70, 71], dedupOk := true }
    1 [⟨some 7⟩] rfl (by decide) rfl (by decide) rfl rfl (by decide)
  simpa using h

/-- C4 witness: one iteration from the initial state of a run that is
answered with HTTP 400 keeps attempts within the retry budget of 2. -/
theorem C4_attempts_bounded_witness :
    (stateOf (timelineStep cfgPlain none fetchClientError neverStop initState)).attempts
      ≤ 2 := by
  have h := (C4_attempts_bounded cfgPlain none fetchClientError neverStop).1
    initState (by decide)
  exact h

/-- C10 witness: in an incremental run with saved cursor 9, after two
iterations the first recorded request still asks for pagination cursor 0
while carrying 9 as the after parameter, and the after parameter is the
saved cursor itself. -/
theorem C10_first_fetch_cursor_zero_witness :
    ((runTimeline cfgIncremental (some 9) fetchClientError neverStop 2).2).requests.head?
      = some (none, afterOf cfgIncremental (some 9)) ∧
    afterOf cfgIncremental (some 9) = 9 := by
  refine ⟨?_, ?_⟩
  · exact ((C10_first_fetch_cursor_zero cfgIncremental (some 9) fetchClientError
      neverStop).2.1 2).2.resolve_left (by decide)
  · exact (C10_first_fetch_cursor_zero cfgIncremental (some 9) fetchClientError
      neverStop).2.2 rfl 9

/-- C1 witness: an iteration that fully processes a two-item page with the
resume cursor already captured as 11 appends exactly the commit (11, 3). -/
theorem C1_commit_per_page_witness :
    exitReasonOf (timelineStep cfgIncremental none fetchRepeatPage neverStop
      { initState with
        timeline_cursor := some 4,
        session_new_items := 1,
        most_recent_cursor := some 11 }) = none ∧
    (stateOf (timelineStep cfgIncremental none fetchRepeatPage neverStop
      { initState with
        timeline_cursor := some 4,
        session_new_items := 1,
        most_recent_cursor := some 11 })).commits = [(11, 3)] ∧
    (stateOf (timelineStep cfgIncremental none fetchRepeatPage neverStop
      { initState with
        timeline_cursor := some 4,
        session_new_items := 1,
        most_recent_cursor := some 11 })).session_new_items = 3 := by
  have h := (C1_commit_per_page cfgIncremental none fetchRepeatPage neverStop rfl).2
    { initState with
      timeline_cursor := some 4,
      session_new_items := 1,
      most_recent_cursor := some 11 } none
    { posts := some [⟨some 7⟩], mediaIds := [70, 71], dedupOk := true }
    11 ⟨some 7⟩ [] 7 (by decide) rfl rfl rfl (by decide) rfl (by decide) rfl rfl
    (by decide)
  simpa using h

/-- C9 witness: a run cancelled after fully processing one page (resume
cursor 11 captured, one item accrued, one commit made) has its last commit
equal to (11, 1), covering everything accrued. -/
theorem C9_cancellation_commit_policy_witness :
    ((runTimeline cfgIncremental none fetchTwoPagesThenEmpty stopAfterFirstIteration
      5).2).commits.getLast? = some (11, 1) := by
  have h := (C9_cancellation_commit_policy cfgIncremental none fetchTwoPagesThenEmpty
    stopAfterFirstIteration rfl).2 5
    (runTimeline cfgIncremental none fetchTwoPagesThenEmpty stopAfterFirstIteration 5).2
    rfl 11 rfl (by decide)
  exact h
